import Mathlib

/-!
Verification of the HKEX settlement-price parser
(`app/services/settlement_parser.py`) against its specification.

The development shallowly embeds the parsing pipeline:

* Python strings are Lean `String`s; the character-level primitives
  (`str.split()`, `str.strip()`, `str.splitlines()`, `str.startswith`)
  are modelled over `List Char` with `Char.isWhitespace` standing for
  Python's whitespace class (space, tab, CR, LF; the exotic Unicode
  whitespace Python also recognises plays no role in any claim).
* Python `float` values are modelled as `ℚ`: the parser only ever
  constructs them from decimal literals and no claim compares float
  arithmetic results, so exact rationals are adequate.
* Exceptions are explicit: `Except` values distinguish exceptions the
  per-row handler catches (`ValueError`/`KeyError`) from those that
  escape to the outer handler of `_parse_file` (e.g. `TypeError`).
* `pandas.DataFrame(data_rows, columns=columns)` is modelled by
  `mkDataFrame`: with a non-empty row list it raises (returns
  `Except.error`) when the maximum row width differs from the column
  count, and otherwise pads short rows with `none` (pandas fills the
  missing cells of the object array with `None`).
* The I/O performed by `_download_file` / `download_and_parse` (cache
  reads and writes, the HTTP fetch, local-file writes, the three store
  writes) is modelled as an explicit effect trace, with an `Env` record
  supplying the collaborators' responses.  Wall-clock timestamps
  (`datetime.now()`) are omitted from the result record.
-/

namespace HKEX

/-- Character-list form of a Python string/token. -/
abbrev Tok := List Char

/-- Python `str.strip()` on the character list: drop leading and
trailing whitespace. -/
def pyStripChars (cs : List Char) : List Char :=
  ((cs.dropWhile Char.isWhitespace).reverse.dropWhile Char.isWhitespace).reverse

/-- Helper for `splitWs`: accumulate the current (reversed) token while
scanning. Mirrors Python `str.split()` with no separator argument:
runs of whitespace separate tokens and produce no empty tokens. -/
def splitWsAux : List Char → List Char → List (List Char)
  | [], cur => if cur.isEmpty then [] else [cur.reverse]
  | c :: cs, cur =>
    if c.isWhitespace then
      if cur.isEmpty then splitWsAux cs [] else cur.reverse :: splitWsAux cs []
    else
      splitWsAux cs (c :: cur)

/-- Python `str.split()` (no argument): whitespace-run tokenization. -/
def splitWs (cs : List Char) : List Tok :=
  splitWsAux cs []

/-- Helper for `pySplitlines`: split at `\n`, `\r\n` or `\r`, without a
trailing empty line for a trailing terminator, as Python
`str.splitlines()` does. -/
def splitlinesAux : List Char → List Char → List (List Char)
  | [], cur => if cur.isEmpty then [] else [cur.reverse]
  | '\n' :: cs, cur => cur.reverse :: splitlinesAux cs []
  | '\r' :: '\n' :: cs, cur => cur.reverse :: splitlinesAux cs []
  | '\r' :: cs, cur => cur.reverse :: splitlinesAux cs []
  | c :: cs, cur => splitlinesAux cs (c :: cur)

/-- Python `str.splitlines()`. -/
def pySplitlines (cs : List Char) : List (List Char) :=
  splitlinesAux cs []

/-- Value of a run of decimal digits (caller guarantees digits). -/
def digitsToNat (ds : List Char) : Nat :=
  ds.foldl (fun a c => a * 10 + (c.toNat - 48)) 0

/-- Parse a non-empty all-digit token; `none` otherwise. -/
def natOfDigits (cs : List Char) : Option Nat :=
  if cs.isEmpty then none
  else if cs.all Char.isDigit then some (digitsToNat cs) else none

/-- Python `int(s)`: optional surrounding whitespace, optional sign,
then a non-empty digit run (digit-group underscores are not modelled;
no claim involves them). Returns `none` where Python raises
`ValueError`. -/
def pyIntChars (cs : List Char) : Option ℤ :=
  match pyStripChars cs with
  | '+' :: rest => (natOfDigits rest).map Int.ofNat
  | '-' :: rest => (natOfDigits rest).map (fun n => -(n : ℤ))
  | rest => (natOfDigits rest).map Int.ofNat

/-- Leading digit run of a token and the remainder. -/
def takeDigits (cs : List Char) : List Char × List Char :=
  (cs.takeWhile Char.isDigit, cs.dropWhile Char.isDigit)

/-- Decimal mantissa of a Python float literal: `d+`, `d+.`, `.d+` or
`d+.d+`; returns its exact rational value and the unconsumed rest. -/
def parseMantissa (cs : List Char) : Option (ℚ × List Char) :=
  match takeDigits cs with
  | (ip, rest) =>
    match rest with
    | '.' :: rest2 =>
      match takeDigits rest2 with
      | (fp, rest3) =>
        if ip.isEmpty ∧ fp.isEmpty then none
        else some ((digitsToNat ip : ℚ) + (digitsToNat fp : ℚ) / ((10 : ℚ) ^ fp.length), rest3)
    | _ => if ip.isEmpty then none else some ((digitsToNat ip : ℚ), rest)

/-- Exponent part of a float literal, after the `e`/`E`. -/
def parseExpPart (cs : List Char) : Option ℤ :=
  match cs with
  | '+' :: rest => (natOfDigits rest).map Int.ofNat
  | '-' :: rest => (natOfDigits rest).map (fun n => -(n : ℤ))
  | rest => (natOfDigits rest).map Int.ofNat

/-- Python `float(s)` restricted to finite decimal literals: optional
surrounding whitespace, optional sign, mantissa, optional exponent.
(`inf`/`nan` spellings are not modelled; no claim involves them.)
Returns `none` where Python raises `ValueError`. -/
def pyFloatChars (cs : List Char) : Option ℚ :=
  match pyStripChars cs with
  | css =>
    match
      (match css with
       | '+' :: rest => ((1 : ℚ), rest)
       | '-' :: rest => ((-1 : ℚ), rest)
       | rest => ((1 : ℚ), rest)) with
    | (sgn, body) =>
      match parseMantissa body with
      | none => none
      | some (m, rest) =>
        match rest with
        | [] => some (sgn * m)
        | 'e' :: r => (parseExpPart r).map (fun e => sgn * m * (10 : ℚ) ^ e)
        | 'E' :: r => (parseExpPart r).map (fun e => sgn * m * (10 : ℚ) ^ e)
        | _ => none

/-- One parsed contract quote, mirroring the record dict built in
`SettlementParser._parse_file`.  The string-valued fields hold the raw
DataFrame cell, which is `none` when pandas padded a short row (Python
would store `None` in the dict). -/
structure SettlementRecord where
  series : Option String
  expiry : Option String
  strike : ℚ
  call_put : Option String
  settlement_price : ℚ
  volume : ℤ
  open_interest : ℤ
deriving Repr, DecidableEq

/-- How a Python exception raised while normalizing one row relates to
the handler `except (ValueError, KeyError)` around the row body. -/
inductive PyExc where
  /-- `ValueError` or `KeyError`: caught, the row is skipped. -/
  | caught
  /-- any other exception (e.g. `TypeError` from `float(None)`):
  escapes the row handler and reaches the outer handler of
  `_parse_file`. -/
  | uncaught
deriving Repr, DecidableEq

/-- The column names `_parse_file` looks up in each row. -/
def seriesTok : Tok := "Series".data

/-- Column name for the expiry field. -/
def expiryTok : Tok := "Expiry".data

/-- Column name for the strike field. -/
def strikeTok : Tok := "Strike".data

/-- Column name for the option-type field. -/
def cpTok : Tok := "Call/Put".data

/-- Column name for the settlement-price field. -/
def settlementTok : Tok := "Settlement".data

/-- Column name for the volume field. -/
def volumeTok : Tok := "Volume".data

/-- Column name for the open-interest field.  Note this contains a
space: whitespace tokenization of the header line can never produce
it. -/
def oiTok : Tok := "Open Interest".data

/-- Index of the first column with the given name (pandas label lookup;
with duplicate labels pandas returns a sub-Series instead, but no
record survives far enough for that difference to be observable). -/
def colIndex (name : Tok) : List Tok → Option Nat
  | [] => none
  | c :: cs => if c = name then some 0 else (colIndex name cs).map (· + 1)

/-- `row[name]` on a DataFrame row: `KeyError` (caught by the row
handler) when the label is absent, otherwise the cell, which is `none`
for a padded cell. -/
def getCell (cols : List Tok) (row : List (Option Tok)) (name : Tok) :
    Except PyExc (Option Tok) :=
  match colIndex name cols with
  | none => Except.error PyExc.caught
  | some i => Except.ok (row.getD i none)

/-- `float(cell)`: `TypeError` (uncaught) on a `None` cell,
`ValueError` (caught) on a non-numeric token. -/
def toFloat (cell : Option Tok) : Except PyExc ℚ :=
  match cell with
  | none => Except.error PyExc.uncaught
  | some t =>
    match pyFloatChars t with
    | none => Except.error PyExc.caught
    | some q => Except.ok q

/-- `int(cell)`: `TypeError` (uncaught) on a `None` cell, `ValueError`
(caught) on a non-integer token. -/
def toInt (cell : Option Tok) : Except PyExc ℤ :=
  match cell with
  | none => Except.error PyExc.uncaught
  | some t =>
    match pyIntChars t with
    | none => Except.error PyExc.caught
    | some z => Except.ok z

/-- Build the record dict for one row, evaluating the seven lookups in
source order and stopping at the first exception. -/
def normalizeRow (cols : List Tok) (row : List (Option Tok)) :
    Except PyExc SettlementRecord :=
  (getCell cols row seriesTok).bind fun series =>
  (getCell cols row expiryTok).bind fun expiry =>
  (getCell cols row strikeTok).bind fun strikeCell =>
  (toFloat strikeCell).bind fun strike =>
  (getCell cols row cpTok).bind fun cp =>
  (getCell cols row settlementTok).bind fun spCell =>
  (toFloat spCell).bind fun sp =>
  (getCell cols row volumeTok).bind fun volCell =>
  (toInt volCell).bind fun vol =>
  (getCell cols row oiTok).bind fun oiCell =>
  (toInt oiCell).bind fun oi =>
  Except.ok
    { series := series.map List.asString
      expiry := expiry.map List.asString
      strike := strike
      call_put := cp.map List.asString
      settlement_price := sp
      volume := vol
      open_interest := oi }

/-- The `for _, row in df.iterrows()` loop: a caught exception skips
the row, an uncaught one aborts the loop (`Except.error`, reaching the
outer handler), otherwise the record is appended. -/
def rowsLoop (cols : List Tok) :
    List (List (Option Tok)) → List SettlementRecord →
    Except Unit (List SettlementRecord)
  | [], acc => Except.ok acc.reverse
  | r :: rs, acc =>
    match normalizeRow cols r with
    | Except.ok rec => rowsLoop cols rs (rec :: acc)
    | Except.error PyExc.caught => rowsLoop cols rs acc
    | Except.error PyExc.uncaught => Except.error ()

/-- `pandas.DataFrame(data_rows, columns=columns)`: an empty row list
gives an empty frame; otherwise pandas builds an object array whose
width is the maximum row length, padding short rows with `None`, and
raises `ValueError` when that width differs from the number of column
labels. -/
def mkDataFrame (rows : List (List Tok)) (ncols : Nat) :
    Except Unit (List (List (Option Tok))) :=
  if rows.isEmpty then Except.ok []
  else
    if (rows.map List.length).foldr max 0 = ncols then
      Except.ok (rows.map (fun r => r.map some ++ List.replicate (ncols - r.length) none))
    else
      Except.error ()

/-- Scan for the first line whose stripped content starts with
`Series`; return it together with the following lines
(`lines[header_idx + 1:]`). -/
def findHeader : List (List Char) → Option (List Char × List (List Char))
  | [] => none
  | l :: ls =>
    if seriesTok.isPrefixOf (pyStripChars l) then some (l, ls)
    else findHeader ls

/-- Body of `_parse_file` from the header line on: tokenize, build the
DataFrame, run the row loop; a pandas `ValueError` or an uncaught row
exception reaches the outer handler, which returns `[]`. -/
def parseWithHeader (header : List Char) (rest : List (List Char)) :
    List SettlementRecord :=
  match
    mkDataFrame ((rest.filter (fun l => !(pyStripChars l).isEmpty)).map splitWs)
      (splitWs header).length with
  | Except.error _ => []
  | Except.ok df =>
    match rowsLoop (splitWs header) df [] with
    | Except.error _ => []
    | Except.ok recs => recs

/-- `SettlementParser._parse_file`, given the text of the file (the
Python method receives a path and reads it; the content is what
matters).  Total: the outer `except Exception` handler converts every
escaping exception into `[]`. -/
def parse_file (content : String) : List SettlementRecord :=
  match findHeader (pySplitlines content.data) with
  | none => []
  | some (header, rest) => parseWithHeader header rest

/-- `settings.hkex_base_url` from `app/config.py`. -/
def hkex_base_url : String := "https://hkex.com/hk/eng/stat/dmstat/datadownload"

/-- `settings.data_dir` default from `app/config.py`. -/
def data_dir : String := "/app/data"

/-- A `datetime.date` value. -/
structure PyDate where
  year : Nat
  month : Nat
  day : Nat
deriving Repr, DecidableEq

/-- Zero-padded two-digit rendering, as `strftime` `%d`/`%m`/`%y`
produce for the in-range values a `datetime.date` can hold. -/
def pad2 (n : Nat) : String :=
  if n < 10 then "0" ++ toString n else toString n

/-- Zero-padded four-digit rendering, as `isoformat` produces for the
year. -/
def pad4 (n : Nat) : String :=
  if n < 10 then "000" ++ toString n
  else if n < 100 then "00" ++ toString n
  else if n < 1000 then "0" ++ toString n
  else toString n

/-- `SettlementParser._generate_filename`:
`f"sp{trading_date.strftime('%d%m%y')}.dat"`. -/
def generate_filename (d : PyDate) : String :=
  "sp" ++ pad2 d.day ++ pad2 d.month ++ pad2 (d.year % 100) ++ ".dat"

/-- `SettlementParser._generate_url`: `f"{self.base_url}/{filename}"`. -/
def generate_url (d : PyDate) : String :=
  hkex_base_url ++ "/" ++ generate_filename d

/-- `os.path.join(self.data_dir, filename)` for the absolute
`data_dir` in use. -/
def localFilePath (d : PyDate) : String :=
  data_dir ++ "/" ++ generate_filename d

/-- `date.isoformat()`, also what `str(date)` interpolates into the
messages. -/
def isoformat (d : PyDate) : String :=
  pad4 d.year ++ "-" ++ pad2 d.month ++ "-" ++ pad2 d.day

/-- The raw-document cache key `f"settlement_file:{date.isoformat()}"`. -/
def settlementCacheKey (d : PyDate) : String :=
  "settlement_file:" ++ isoformat d

/-- The metadata persisted by the orchestrator to the config store
(`redis_client.set_config`); the wall-clock download timestamp is
omitted. -/
structure Metadata where
  trading_date : String
  total_records : Nat
  cassandra_success : Bool
  influxdb_success : Bool
deriving Repr, DecidableEq

/-- One observable call to a collaborator, in program order. -/
inductive Effect where
  | cacheGet (key : String)
  | httpGet (url : String)
  | cacheSet (key : String) (value : String) (expire : Nat)
  | fileWrite (path : String) (content : String)
  | cassandraInsert (tradingDate : String) (records : List SettlementRecord)
  | influxWrite (tradingDate : String) (records : List SettlementRecord)
  | configSet (key : String) (value : Metadata)
deriving Repr, DecidableEq

/-- Responses of the external collaborators for one pipeline run:
the cache lookup result for the settlement-file key (`none` models a
missing key), the HTTP fetch outcome (`none` models a
`requests.RequestException`, including a non-success status raised by
`raise_for_status`), and the boolean results the two store writes
return. -/
structure Env where
  cacheValue : Option String
  fetchResult : Option String
  cassandraOk : Bool
  influxOk : Bool
deriving Repr, DecidableEq

/-- The cache-miss arm of `_download_file`: fetch, and on success cache
the text (TTL 3600) and write the local file; on failure return `None`
having performed neither write. -/
def fetchFile (env : Env) (d : PyDate) : Option String × List Effect :=
  match env.fetchResult with
  | some body =>
    (some body,
     [Effect.cacheGet (settlementCacheKey d),
      Effect.httpGet (generate_url d),
      Effect.cacheSet (settlementCacheKey d) body 3600,
      Effect.fileWrite (localFilePath d) body])
  | none =>
    (none,
     [Effect.cacheGet (settlementCacheKey d),
      Effect.httpGet (generate_url d)])

/-- `SettlementParser._download_file`.  The Python method returns the
local file path and `_parse_file` reads that file back; the embedding
returns the content written there (the same data flow).  Python's
`if cached_content:` is string truthiness: an empty cached string falls
through to the fetch path. -/
def download_file (env : Env) (d : PyDate) : Option String × List Effect :=
  match env.cacheValue with
  | some c =>
    if c = "" then fetchFile env d
    else
      (some c,
       [Effect.cacheGet (settlementCacheKey d),
        Effect.fileWrite (localFilePath d) c])
  | none => fetchFile env d

/-- The status/message/count summary `download_and_parse` returns; the
wall-clock `download_timestamp` field is omitted. -/
structure PipelineResult where
  status : String
  message : String
  records_count : Nat
deriving Repr, DecidableEq

/-- `SettlementParser.download_and_parse` with the parse step as an
explicit collaborator (the repository's own unit tests exercise the
orchestrator exactly this way, by mocking `_parse_file`).  Collaborator
calls appear in the effect trace in program order. -/
def downloadAndParseWith (parse : String → List SettlementRecord)
    (env : Env) (d : PyDate) : PipelineResult × List Effect :=
  match download_file env d with
  | (none, effs) =>
    ({ status := "error"
       message := "Failed to download file for " ++ isoformat d
       records_count := 0 }, effs)
  | (some content, effs) =>
    match parse content with
    | [] =>
      ({ status := "error"
         message := "No valid records found for " ++ isoformat d
         records_count := 0 }, effs)
    | rec0 :: recs =>
      let records := rec0 :: recs
      let ds := isoformat d
      let md : Metadata :=
        { trading_date := ds
          total_records := records.length
          cassandra_success := env.cassandraOk
          influxdb_success := env.influxOk }
      ({ status := "success"
         message := "Successfully processed " ++ toString records.length
                    ++ " records for " ++ ds
         records_count := records.length },
       effs ++
        [Effect.cassandraInsert ds records,
         Effect.influxWrite ds records,
         Effect.configSet ("settlement_metadata:" ++ ds) md])

/-- `SettlementParser.download_and_parse` proper, with the real
`_parse_file`. -/
def download_and_parse (env : Env) (d : PyDate) : PipelineResult × List Effect :=
  downloadAndParseWith parse_file env d

/-! ## Helper lemmas -/

theorem exbind_ok {α β : Type} {e : Except PyExc α} {f : α → Except PyExc β}
    {b : β} (h : e.bind f = Except.ok b) :
    ∃ a, e = Except.ok a ∧ f a = Except.ok b := by
  cases e with
  | error err => exact absurd h (by simp [Except.bind])
  | ok a => exact ⟨a, rfl, by simpa [Except.bind] using h⟩

/-- Every token `str.split()` produces is free of whitespace
characters. -/
theorem splitWsAux_no_ws :
    ∀ (cs cur : List Char), (∀ c ∈ cur, c.isWhitespace = false) →
      ∀ t ∈ splitWsAux cs cur, ∀ c ∈ t, c.isWhitespace = false := by
  intro cs
  induction cs with
  | nil =>
    intro cur hcur t ht c hc
    unfold splitWsAux at ht
    by_cases h : cur.isEmpty
    · simp [h] at ht
    · simp [h] at ht
      subst ht
      exact hcur c (List.mem_reverse.mp hc)
  | cons a as ih =>
    intro cur hcur t ht c hc
    unfold splitWsAux at ht
    by_cases hws : a.isWhitespace
    · by_cases hcurE : cur.isEmpty
      · simp [hws, hcurE] at ht
        exact ih [] (by simp) t ht c hc
      · simp [hws, hcurE] at ht
        rcases ht with rfl | ht
        · exact hcur c (List.mem_reverse.mp hc)
        · exact ih [] (by simp) t ht c hc
    · simp [hws] at ht
      refine ih (a :: cur) ?_ t ht c hc
      intro x hx
      rcases List.mem_cons.mp hx with rfl | hx
      · simpa using hws
      · exact hcur x hx

/-- The column name `Open Interest` contains a space, so it can never
be a token of the whitespace-split header line. -/
theorem oiTok_not_mem_splitWs (cs : List Char) : oiTok ∉ splitWs cs := by
  intro hm
  have h := splitWsAux_no_ws cs [] (by simp) oiTok hm ' ' (by decide)
  exact absurd h (by decide)

theorem colIndex_eq_none {name : Tok} :
    ∀ {l : List Tok}, name ∉ l → colIndex name l = none := by
  intro l
  induction l with
  | nil => intro _; rfl
  | cons x xs ih =>
    intro h
    rw [List.mem_cons, not_or] at h
    unfold colIndex
    rw [if_neg (fun hx => h.1 hx.symm), ih h.2]
    rfl

/-- When the schema lacks the `Open Interest` label, no row ever
normalizes to a record: the lookup raises `KeyError` first (and the
lookups before it can only raise, never skip to the append). -/
theorem normalizeRow_no_ok {cols : List Tok} {row : List (Option Tok)}
    (h : colIndex oiTok cols = none) (r : SettlementRecord) :
    normalizeRow cols row ≠ Except.ok r := by
  intro hok
  have hoi : getCell cols row oiTok = Except.error PyExc.caught := by
    unfold getCell
    rw [h]
  unfold normalizeRow at hok
  obtain ⟨series, _, hok⟩ := exbind_ok hok
  obtain ⟨expiry, _, hok⟩ := exbind_ok hok
  obtain ⟨strikeCell, _, hok⟩ := exbind_ok hok
  obtain ⟨strike, _, hok⟩ := exbind_ok hok
  obtain ⟨cp, _, hok⟩ := exbind_ok hok
  obtain ⟨spCell, _, hok⟩ := exbind_ok hok
  obtain ⟨sp, _, hok⟩ := exbind_ok hok
  obtain ⟨volCell, _, hok⟩ := exbind_ok hok
  obtain ⟨vol, _, hok⟩ := exbind_ok hok
  obtain ⟨oiCell, hoiCell, _⟩ := exbind_ok hok
  rw [hoi] at hoiCell
  exact Except.noConfusion hoiCell

/-- If no row can normalize, the row loop can only return its
accumulator. -/
theorem rowsLoop_ok_eq {cols : List Tok}
    (hno : ∀ row r, normalizeRow cols row ≠ Except.ok r) :
    ∀ (rows : List (List (Option Tok))) (acc res : List SettlementRecord),
      rowsLoop cols rows acc = Except.ok res → res = acc.reverse := by
  intro rows
  induction rows with
  | nil =>
    intro acc res h
    unfold rowsLoop at h
    cases h
    rfl
  | cons row rs ih =>
    intro acc res h
    unfold rowsLoop at h
    cases hn : normalizeRow cols row with
    | ok rec => exact absurd hn (hno row rec)
    | error e =>
      rw [hn] at h
      cases e with
      | caught => exact ih acc res h
      | uncaught => exact Except.noConfusion h

/-- Central fact about the code as written: `_parse_file` can never
produce a record, because the row normalization looks up the column
label `Open Interest`, which whitespace tokenization of the header can
never produce, so every row raises `KeyError` (or an earlier lookup
raises) before the append. -/
theorem parseWithHeader_eq_nil (header : List Char) (rest : List (List Char)) :
    parseWithHeader header rest = [] := by
  have hno : ∀ row r, normalizeRow (splitWs header) row ≠ Except.ok r :=
    fun row r => normalizeRow_no_ok (colIndex_eq_none (oiTok_not_mem_splitWs header)) r
  unfold parseWithHeader
  split
  · rfl
  · rename_i df hdf
    split
    · rfl
    · rename_i recs hrl
      have h := rowsLoop_ok_eq hno df [] recs hrl
      simpa using h

/-- `_parse_file` returns the empty record list on every input. -/
theorem parse_file_eq_nil (content : String) : parse_file content = [] := by
  unfold parse_file
  split
  · rfl
  · exact parseWithHeader_eq_nil _ _

/-- If no line of the document strip-starts with `Series`, the header
scan fails. -/
theorem findHeader_eq_none :
    ∀ {lines : List (List Char)},
      (∀ l ∈ lines, seriesTok.isPrefixOf (pyStripChars l) = false) →
      findHeader lines = none := by
  intro lines
  induction lines with
  | nil => intro _; rfl
  | cons l ls ih =>
    intro h
    have h0 : seriesTok.isPrefixOf (pyStripChars l) = false :=
      h l (List.mem_cons_self l ls)
    unfold findHeader
    rw [h0]
    simp only [Bool.false_eq_true, if_false]
    exact ih fun x hx => h x (List.mem_cons_of_mem l hx)

theorem strData_append (a b : String) : (a ++ b).data = a.data ++ b.data := by
  cases a
  cases b
  rfl

theorem strLength_append (a b : String) :
    (a ++ b).length = a.length + b.length := by
  show (a ++ b).data.length = a.data.length + b.data.length
  rw [strData_append, List.length_append]

/-- The fetch-failure message and the parse-failure message differ for
every date. -/
theorem downloadMsg_ne_parseMsg (s : String) :
    "Failed to download file for " ++ s ≠ "No valid records found for " ++ s := by
  intro h
  have h2 := congrArg String.length h
  rw [strLength_append, strLength_append] at h2
  have e1 : ("Failed to download file for " : String).length = 28 := rfl
  have e2 : ("No valid records found for " : String).length = 27 := rfl
  rw [e1, e2] at h2
  omega

/-! ## Claims -/

/-- C1: the spec says parsing the two-line document with header
`Series Expiry Strike Call/Put Settlement Volume Open Interest` and the
data line `HTI2308 2023-08-25 18000 Call 0.1234 100 50` yields exactly
one record.  Evaluating the code at that input yields zero records: the
header splits into eight names (`Open` and `Interest` separately), the
row has seven tokens, so the DataFrame constructor raises and the outer
handler returns the empty list. -/
theorem claim1_sample_document_yields_no_records :
    parse_file ("Series Expiry Strike Call/Put Settlement Volume Open Interest\nHTI2308 2023-08-25 18000 Call 0.1234 100 50") = [] := by
  rfl

/-- C2: the spec says a row whose token count differs from the column
count is dropped while matching rows are still normalized and returned.
Evaluating the code on a document with one eight-token (matching) row
and one six-token (mismatched) row: both rows are lost and the parser
returns no records, because the normalizer's `Open Interest` lookup
raises `KeyError` for every row. -/
theorem claim2_matching_row_not_returned :
    parse_file ("Series Expiry Strike Call/Put Settlement Volume Open Interest\nHTI2308 2023-08-25 18000 Call 0.1234 100 50 60\nHTI2309 2023-08-25 18500 Put 0.5678 200") = [] := by
  rfl

/-- C3 counterexample: the claim says the zero-surviving-rows case
carries a message distinct from the header-not-found case.  At these
two concrete inputs (one without any `Series` line, one with a header
whose single row is malformed) the orchestrator returns the very same
message, with status `error` in both cases. -/
theorem claim3_counterexample_same_message :
    (download_and_parse ⟨some "Some random data\nMore data", none, true, true⟩ ⟨2023, 8, 22⟩).1.message
      = (download_and_parse ⟨some "Header Line\nSeries Expiry Strike Call/Put Settlement Volume Open Interest\nHTI2308 2023-08-25 invalid Call 0.1234 100 50", none, true, true⟩ ⟨2023, 8, 22⟩).1.message
    ∧ (download_and_parse ⟨some "Some random data\nMore data", none, true, true⟩ ⟨2023, 8, 22⟩).1.status = "error"
    ∧ (download_and_parse ⟨some "Header Line\nSeries Expiry Strike Call/Put Settlement Volume Open Interest\nHTI2308 2023-08-25 invalid Call 0.1234 100 50", none, true, true⟩ ⟨2023, 8, 22⟩).1.status = "error" := by
  exact ⟨rfl, rfl, rfl⟩

/-- C3 amended: when the document parses but zero rows survive, the
orchestrator returns status `error` with the SAME message as the
header-not-found case — both funnel through the empty-records branch of
`download_and_parse`, producing `No valid records found for {date}`.
(Stated for any cached document: `_parse_file` returns zero records in
both situations.) -/
theorem claim3_same_error_message (env : Env) (d : PyDate) (c : String)
    (h1 : env.cacheValue = some c) (h2 : c ≠ "") :
    (download_and_parse env d).1 =
      { status := "error"
        message := "No valid records found for " ++ isoformat d
        records_count := 0 } := by
  have hdl : download_file env d =
      (some c, [Effect.cacheGet (settlementCacheKey d),
                Effect.fileWrite (localFilePath d) c]) := by
    unfold download_file
    rw [h1]
    simp [h2]
  simp [download_and_parse, downloadAndParseWith, hdl, parse_file_eq_nil]

/-- Witness for C3's amended theorem at a concrete cached document. -/
theorem claim3_same_error_message_witness :
    (download_and_parse ⟨some "Some random data\nMore data", none, true, true⟩ ⟨2023, 8, 22⟩).1 =
      { status := "error"
        message := "No valid records found for " ++ isoformat ⟨2023, 8, 22⟩
        records_count := 0 } :=
  claim3_same_error_message _ _ "Some random data\nMore data" rfl (by decide)

/-- C4: for every document with no line whose stripped content starts
with `Series`, the pipeline yields zero records and the orchestrator
returns status `error` (with zero count); the embedded functions return
these values totally, i.e. no exception escapes. -/
theorem claim4_no_header_error (content : String) (env : Env) (d : PyDate)
    (hno : ∀ l ∈ pySplitlines content.data, seriesTok.isPrefixOf (pyStripChars l) = false)
    (hc : env.cacheValue = none) (hf : env.fetchResult = some content) :
    parse_file content = [] ∧
      (download_and_parse env d).1.status = "error" ∧
      (download_and_parse env d).1.records_count = 0 := by
  have hp : parse_file content = [] := by
    unfold parse_file
    rw [findHeader_eq_none hno]
  refine ⟨hp, ?_, ?_⟩ <;>
    simp [download_and_parse, downloadAndParseWith, download_file, fetchFile, hc, hf, hp]

/-- Witness for C4 at the repository's own no-header test input. -/
theorem claim4_no_header_error_witness :
    parse_file "Some random data\nMore data" = [] ∧
      (download_and_parse ⟨none, some "Some random data\nMore data", true, true⟩ ⟨2023, 8, 22⟩).1.status = "error" ∧
      (download_and_parse ⟨none, some "Some random data\nMore data", true, true⟩ ⟨2023, 8, 22⟩).1.records_count = 0 :=
  claim4_no_header_error "Some random data\nMore data" _ _ (by decide) rfl rfl

/-- C5: a row in which the strike, settlement price, volume or open
interest cell holds a token that cannot be coerced to its numeric type
(float for the first two, int for the last two) never normalizes to a
record — the coercion's `ValueError` is caught by the per-row handler
and the row is dropped without raising; and the spec's scenario
document whose only data row has strike token `invalid` parses to zero
records, the parse returning normally. -/
theorem claim5_uncoercible_numeric_dropped (cols : List Tok) (row : List (Option Tok))
    (r : SettlementRecord)
    (h : (∃ t, getCell cols row strikeTok = Except.ok (some t) ∧ pyFloatChars t = none) ∨
         (∃ t, getCell cols row settlementTok = Except.ok (some t) ∧ pyFloatChars t = none) ∨
         (∃ t, getCell cols row volumeTok = Except.ok (some t) ∧ pyIntChars t = none) ∨
         (∃ t, getCell cols row oiTok = Except.ok (some t) ∧ pyIntChars t = none)) :
    normalizeRow cols row ≠ Except.ok r ∧
      parse_file ("Series Expiry Strike Call/Put Settlement Volume Open Interest\nHTI2308 2023-08-25 invalid Call 0.1234 100 50") = [] := by
  refine ⟨?_, rfl⟩
  intro hok
  unfold normalizeRow at hok
  obtain ⟨series, _, hok⟩ := exbind_ok hok
  obtain ⟨expiry, _, hok⟩ := exbind_ok hok
  obtain ⟨strikeCell, hsc, hok⟩ := exbind_ok hok
  obtain ⟨strike, hsf, hok⟩ := exbind_ok hok
  obtain ⟨cp, _, hok⟩ := exbind_ok hok
  obtain ⟨spCell, hspc, hok⟩ := exbind_ok hok
  obtain ⟨sp, hspf, hok⟩ := exbind_ok hok
  obtain ⟨volCell, hvc, hok⟩ := exbind_ok hok
  obtain ⟨vol, hvf, hok⟩ := exbind_ok hok
  obtain ⟨oiCell, hoic, hok⟩ := exbind_ok hok
  obtain ⟨oi, hoif, _⟩ := exbind_ok hok
  rcases h with ⟨t, ht, hn⟩ | ⟨t, ht, hn⟩ | ⟨t, ht, hn⟩ | ⟨t, ht, hn⟩
  · rw [ht] at hsc
    injection hsc with h3
    subst h3
    rw [show toFloat (some t) = Except.error PyExc.caught from by simp [toFloat, hn]] at hsf
    exact Except.noConfusion hsf
  · rw [ht] at hspc
    injection hspc with h3
    subst h3
    rw [show toFloat (some t) = Except.error PyExc.caught from by simp [toFloat, hn]] at hspf
    exact Except.noConfusion hspf
  · rw [ht] at hvc
    injection hvc with h3
    subst h3
    rw [show toInt (some t) = Except.error PyExc.caught from by simp [toInt, hn]] at hvf
    exact Except.noConfusion hvf
  · rw [ht] at hoic
    injection hoic with h3
    subst h3
    rw [show toInt (some t) = Except.error PyExc.caught from by simp [toInt, hn]] at hoif
    exact Except.noConfusion hoif

/-- Witness for C5: a concrete schema and row whose strike cell holds
the token `invalid`, discharging the disjunctive hypothesis with the
strike case. -/
theorem claim5_uncoercible_numeric_dropped_witness :
    normalizeRow [seriesTok, expiryTok, strikeTok]
        [some "A".data, some "B".data, some "invalid".data]
      ≠ Except.ok ⟨none, none, 0, none, 0, 0, 0⟩ ∧
      parse_file ("Series Expiry Strike Call/Put Settlement Volume Open Interest\nHTI2308 2023-08-25 invalid Call 0.1234 100 50") = [] :=
  claim5_uncoercible_numeric_dropped [seriesTok, expiryTok, strikeTok]
    [some "A".data, some "B".data, some "invalid".data]
    ⟨none, none, 0, none, 0, 0, 0⟩
    (Or.inl ⟨"invalid".data, rfl, rfl⟩)

/-- C6: on a cache hit (a non-empty cached value), `_download_file`
uses the cached value as the raw document and its effect trace is
exactly a cache read followed by the local-file write — it contains no
`httpGet`, i.e. the network fetch never occurs. -/
theorem claim6_cache_hit_skips_fetch (env : Env) (d : PyDate) (c : String)
    (h1 : env.cacheValue = some c) (h2 : c ≠ "") :
    download_file env d =
      (some c, [Effect.cacheGet (settlementCacheKey d),
                Effect.fileWrite (localFilePath d) c]) := by
  unfold download_file
  rw [h1]
  simp [h2]

/-- Witness for C6: a populated cache entry alongside an available
fetch result; the fetch result is ignored. -/
theorem claim6_cache_hit_skips_fetch_witness :
    download_file ⟨some "cached content", some "fetched content", true, true⟩ ⟨2023, 8, 22⟩ =
      (some "cached content",
       [Effect.cacheGet (settlementCacheKey ⟨2023, 8, 22⟩),
        Effect.fileWrite (localFilePath ⟨2023, 8, 22⟩) "cached content"]) :=
  claim6_cache_hit_skips_fetch _ _ "cached content" rfl (by decide)

/-- C7: when the cache has no (non-empty) entry and the fetch fails,
the orchestrator returns status `error` with `records_count = 0` and
the fetch-failure message, the effect trace is exactly the cache read
and the attempted fetch (no cache write, no file write, no store
write — and parsing is never reached), and the message differs from the
parse-failure message for the same date. -/
theorem claim7_fetch_failure_no_cache_write (env : Env) (d : PyDate)
    (h1 : env.cacheValue = none ∨ env.cacheValue = some "")
    (h2 : env.fetchResult = none) :
    download_and_parse env d =
      ({ status := "error"
         message := "Failed to download file for " ++ isoformat d
         records_count := 0 },
       [Effect.cacheGet (settlementCacheKey d), Effect.httpGet (generate_url d)]) ∧
      "Failed to download file for " ++ isoformat d ≠
        "No valid records found for " ++ isoformat d := by
  refine ⟨?_, downloadMsg_ne_parseMsg _⟩
  rcases h1 with h1 | h1 <;>
    simp [download_and_parse, downloadAndParseWith, download_file, fetchFile, h1, h2]

/-- Witness for C7: empty cache, failing fetch. -/
theorem claim7_fetch_failure_no_cache_write_witness :
    download_and_parse ⟨none, none, true, true⟩ ⟨2023, 8, 22⟩ =
      ({ status := "error"
         message := "Failed to download file for " ++ isoformat ⟨2023, 8, 22⟩
         records_count := 0 },
       [Effect.cacheGet (settlementCacheKey ⟨2023, 8, 22⟩),
        Effect.httpGet (generate_url ⟨2023, 8, 22⟩)]) ∧
      "Failed to download file for " ++ isoformat ⟨2023, 8, 22⟩ ≠
        "No valid records found for " ++ isoformat ⟨2023, 8, 22⟩ :=
  claim7_fetch_failure_no_cache_write _ _ (Or.inl rfl) rfl

/-- C8: filename and URL derivation are pure functions of the trading
date with the `sp{DDMMYY}.dat` shape: `2023-08-22` maps to
`sp220823.dat` (and, with zero padding, `2024-01-05` to
`sp050124.dat`); the URL is always the base URL, a slash and the
filename. -/
theorem claim8_filename_and_url :
    generate_filename ⟨2023, 8, 22⟩ = "sp220823.dat" ∧
    generate_filename ⟨2024, 1, 5⟩ = "sp050124.dat" ∧
    generate_url ⟨2023, 8, 22⟩ = "https://hkex.com/hk/eng/stat/dmstat/datadownload/sp220823.dat" ∧
    ∀ d : PyDate, generate_url d = hkex_base_url ++ "/" ++ generate_filename d :=
  ⟨by decide, by decide, by decide, fun d => rfl⟩

/-- C9: whenever the parse step yields at least one record, the
orchestrator returns status `success` with the full record count; the
Cassandra/InfluxDB success flags never alter the returned summary (it
equals the summary obtained when both stores succeed) and are recorded
in the metadata written to the config store.  The parse step is the
explicit collaborator of `downloadAndParseWith`, exactly as the
repository's unit tests mock `_parse_file`. -/
theorem claim9_store_failures_ignored_in_result
    (p : String → List SettlementRecord) (env : Env) (d : PyDate) (c : String)
    (h1 : env.cacheValue = some c) (h2 : c ≠ "") (h3 : p c ≠ []) :
    (downloadAndParseWith p env d).1.status = "success" ∧
    (downloadAndParseWith p env d).1.records_count = (p c).length ∧
    (downloadAndParseWith p env d).1 =
      (downloadAndParseWith p (Env.mk env.cacheValue env.fetchResult true true) d).1 ∧
    Effect.configSet ("settlement_metadata:" ++ isoformat d)
        (Metadata.mk (isoformat d) (p c).length env.cassandraOk env.influxOk)
      ∈ (downloadAndParseWith p env d).2 := by
  have hdl : download_file env d =
      (some c, [Effect.cacheGet (settlementCacheKey d),
                Effect.fileWrite (localFilePath d) c]) := by
    unfold download_file
    rw [h1]
    simp [h2]
  have hdl2 : download_file (Env.mk env.cacheValue env.fetchResult true true) d =
      (some c, [Effect.cacheGet (settlementCacheKey d),
                Effect.fileWrite (localFilePath d) c]) := by
    unfold download_file
    simp [h1, h2]
  cases hp : p c with
  | nil => exact absurd hp h3
  | cons a as =>
    refine ⟨?_, ?_, ?_, ?_⟩ <;>
      simp [downloadAndParseWith, hdl, hdl2, hp]

/-- Witness for C9: a one-record parse result with both store writes
failing. -/
theorem claim9_store_failures_ignored_in_result_witness :
    (downloadAndParseWith (fun _ => [⟨some "HTI2308", some "2023-08-25", 18000, some "Call", 1, 100, 50⟩])
        ⟨some "doc", none, false, false⟩ ⟨2023, 8, 22⟩).1.status = "success" ∧
    (downloadAndParseWith (fun _ => [⟨some "HTI2308", some "2023-08-25", 18000, some "Call", 1, 100, 50⟩])
        ⟨some "doc", none, false, false⟩ ⟨2023, 8, 22⟩).1.records_count =
      ((fun _ => [(⟨some "HTI2308", some "2023-08-25", 18000, some "Call", 1, 100, 50⟩ : SettlementRecord)]) "doc").length ∧
    (downloadAndParseWith (fun _ => [⟨some "HTI2308", some "2023-08-25", 18000, some "Call", 1, 100, 50⟩])
        ⟨some "doc", none, false, false⟩ ⟨2023, 8, 22⟩).1 =
      (downloadAndParseWith (fun _ => [⟨some "HTI2308", some "2023-08-25", 18000, some "Call", 1, 100, 50⟩])
        (Env.mk (Env.mk (some "doc") none false false).cacheValue (Env.mk (some "doc") none false false).fetchResult true true) ⟨2023, 8, 22⟩).1 ∧
    Effect.configSet ("settlement_metadata:" ++ isoformat ⟨2023, 8, 22⟩)
        (Metadata.mk (isoformat ⟨2023, 8, 22⟩)
          ((fun _ => [(⟨some "HTI2308", some "2023-08-25", 18000, some "Call", 1, 100, 50⟩ : SettlementRecord)]) "doc").length
          (Env.mk (some "doc") none false false).cassandraOk (Env.mk (some "doc") none false false).influxOk)
      ∈ (downloadAndParseWith (fun _ => [⟨some "HTI2308", some "2023-08-25", 18000, some "Call", 1, 100, 50⟩])
          ⟨some "doc", none, false, false⟩ ⟨2023, 8, 22⟩).2 :=
  claim9_store_failures_ignored_in_result _ _ _ "doc" rfl (by decide) (by simp)

/-- C10: on a cache hit, `_download_file` also performs the local-file
side effect: its effect trace contains the write of the cached content
to `data_dir/sp{DDMMYY}.dat` (mode `w`, i.e. replacing any existing
file), the same write the fetch path performs; concretely the path for
2023-08-22 is `/app/data/sp220823.dat`. -/
theorem claim10_cache_hit_writes_local_file (env : Env) (d : PyDate) (c : String)
    (h1 : env.cacheValue = some c) (h2 : c ≠ "") :
    Effect.fileWrite (localFilePath d) c ∈ (download_file env d).2 ∧
      localFilePath ⟨2023, 8, 22⟩ = "/app/data/sp220823.dat" := by
  constructor
  · simp [download_file, h1, h2]
  · decide

/-- Witness for C10 at a concrete cached document. -/
theorem claim10_cache_hit_writes_local_file_witness :
    Effect.fileWrite (localFilePath ⟨2023, 8, 22⟩) "cached content"
        ∈ (download_file ⟨some "cached content", none, true, true⟩ ⟨2023, 8, 22⟩).2 ∧
      localFilePath ⟨2023, 8, 22⟩ = "/app/data/sp220823.dat" :=
  claim10_cache_hit_writes_local_file _ _ "cached content" rfl (by decide)

end HKEX
